import Mathlib

/-!
Verification of the PM-event classification and chronic-tool scoring engine.

The definitions below are a shallow embedding of the Python sources:
`classification.py` (PMTimingClassifier, ChronicToolAnalyzer),
`kpi_aggregator.py` (rolling statistics), and `validate_config.py`
(score-weight validation).  Machine floats are modelled as exact rationals;
a float `NaN` (e.g. a null column value, or the sample standard deviation
of a single observation) is modelled as `none : Option ℚ`, and every
comparison against `none` is `false`, matching IEEE comparison semantics
used by numpy/pandas.
-/

/-! ### PMTimingClassifier (classification.py, lines 18-141) -/

/-- Thresholds held by `PMTimingClassifier.__init__`. -/
structure PMTimingConfig where
  early_threshold : ℚ
  on_time_min : ℚ
  on_time_max : ℚ
  late_threshold : ℚ
  overdue_threshold : ℚ
deriving DecidableEq

/-- Default thresholds from `__init__` (`config.get` fallbacks):
early `-15`, on-time `[-15, 15]`, late `15`, overdue `30`. -/
def defaultTimingConfig : PMTimingConfig :=
  { early_threshold := -15, on_time_min := -15, on_time_max := 15,
    late_threshold := 15, overdue_threshold := 30 }

/-- `df['pm_life_vs_target'] = df['CUSTOM_DELTA'] - df['Median_Delta']`:
the subtraction is `NaN` (`none`) when either operand is. -/
def pm_life_vs_target (custom_delta median_delta : Option ℚ) : Option ℚ :=
  match custom_delta, median_delta with
  | some c, some m => some (c - m)
  | _, _ => none

/-- `np.where(Median_Delta > 0, pm_life_vs_target / Median_Delta * 100, nan)`:
when the target is `NaN`, the comparison `NaN > 0` is false and the result
is `NaN`; when the target is positive the quotient is still `NaN` if the
actual (`CUSTOM_DELTA`) is `NaN`. -/
def pm_life_vs_target_pct (custom_delta median_delta : Option ℚ) : Option ℚ :=
  match median_delta with
  | some m =>
      if 0 < m then
        match pm_life_vs_target custom_delta (some m) with
        | some d => some (d / m * 100)
        | none => none
      else none
  | none => none

/-- Inner `classify_row` of `PMTimingClassifier.classify_timing`
(classification.py lines 88-100), with `NaN` mapped to `Unknown`. -/
def classify_row (cfg : PMTimingConfig) (pct : Option ℚ) : String :=
  match pct with
  | none => "Unknown"
  | some p =>
      if p < cfg.early_threshold then "Early"
      else if cfg.on_time_min ≤ p ∧ p ≤ cfg.on_time_max then "On-Time"
      else if cfg.late_threshold < p ∧ p ≤ cfg.overdue_threshold then "Late"
      else if cfg.overdue_threshold < p then "Overdue"
      else "On-Time"

/-- Python `str.lower()` on the ASCII alphabet the downtime types use
(character-wise lowercasing). -/
def strLower (s : String) : String := String.mk (s.data.map Char.toLower)

/-- `scheduled_flag` column of `PMTimingClassifier.classify_scheduled`:
`1 if str(x).lower() == 'scheduled' else 0`.  A null value stringifies to
`"nan"`, which is not `"scheduled"`, so it gets flag `0`. -/
def scheduled_flag (downtime_type : Option String) : ℕ :=
  match downtime_type with
  | some s => if strLower s = "scheduled" then 1 else 0
  | none => 0

/-- `scheduled_category` column of `PMTimingClassifier.classify_scheduled`. -/
def scheduled_category (downtime_type : Option String) : String :=
  match downtime_type with
  | some s =>
      if strLower s = "scheduled" then "Scheduled"
      else if strLower s = "unscheduled" then "Unscheduled"
      else "Unknown"
  | none => "Unknown"

/-! ### ChronicToolAnalyzer configuration and scoring
(classification.py, lines 144-314) -/

/-- Thresholds, weights and severity cutoffs held by
`ChronicToolAnalyzer.__init__`. -/
structure ChronicConfig where
  unscheduled_pm_threshold : ℚ
  pm_variance_threshold : ℚ
  min_pm_events : ℕ
  weight_unscheduled : ℚ
  weight_variance : ℚ
  weight_downtime : ℚ
  weight_reclean : ℚ
  weight_sympathy : ℚ
  severity_low : ℚ
  severity_medium : ℚ
  severity_high : ℚ
  severity_critical : ℚ
deriving DecidableEq

/-- Default configuration from `__init__`: thresholds `0.30` / `0.40` / `5`,
weights `0.35 / 0.25 / 0.20 / 0.10 / 0.10`, severities `25 / 50 / 75 / 90`. -/
def defaultChronicConfig : ChronicConfig :=
  { unscheduled_pm_threshold := 3/10, pm_variance_threshold := 2/5,
    min_pm_events := 5,
    weight_unscheduled := 7/20, weight_variance := 1/4, weight_downtime := 1/5,
    weight_reclean := 1/10, weight_sympathy := 1/10,
    severity_low := 25, severity_medium := 50, severity_high := 75,
    severity_critical := 90 }

/-- `np.clip(x, lo, hi)`. -/
def npClip (x lo hi : ℚ) : ℚ := min (max x lo) hi

/-- Round-half-to-even to an integer, the rounding mode of numpy/pandas
`.round()`. -/
def roundHalfEven (q : ℚ) : ℤ :=
  let f := ⌊q⌋
  let r := q - f
  if r < 1/2 then f
  else if 1/2 < r then f + 1
  else if f % 2 = 0 then f else f + 1

/-- `Series.round(2)`: round to two decimal places. -/
def round2 (q : ℚ) : ℚ := (roundHalfEven (q * 100) : ℚ) / 100

/-- `ChronicToolAnalyzer.calculate_chronic_score` on one aggregate row:
the three threshold-normalised factors are clipped to `[0, 100]`, the
reclean and sympathy factors are scaled by `100` without clipping, and the
weighted sum is rounded to two decimals. -/
def calculate_chronic_score (cfg : ChronicConfig)
    (unscheduled_pm_rate pm_life_variance avg_downtime_hours_per_pm
     reclean_rate sympathy_pm_rate : ℚ) : ℚ :=
  let unscheduled_score :=
    npClip (unscheduled_pm_rate / cfg.unscheduled_pm_threshold * 100) 0 100
  let variance_score :=
    npClip (pm_life_variance / cfg.pm_variance_threshold * 100) 0 100
  let downtime_score := npClip (avg_downtime_hours_per_pm / 10 * 100) 0 100
  let reclean_score := reclean_rate * 100
  let sympathy_score := sympathy_pm_rate * 100
  round2 (unscheduled_score * cfg.weight_unscheduled +
          variance_score * cfg.weight_variance +
          downtime_score * cfg.weight_downtime +
          reclean_score * cfg.weight_reclean +
          sympathy_score * cfg.weight_sympathy)

/-- Comparison `c < x` where `x` may be `NaN` (`none`): false on `NaN`,
as in IEEE floating point. -/
def nanLt (c : ℚ) (x : Option ℚ) : Bool :=
  match x with
  | some v => decide (c < v)
  | none => false

/-- Comparison `c ≤ x` where `x` may be `NaN` (`none`): false on `NaN`. -/
def nanLe (c : ℚ) (x : Option ℚ) : Bool :=
  match x with
  | some v => decide (c ≤ v)
  | none => false

/-- The `chronic_flag` column of `classify_chronic_tools`
(classification.py lines 277-284).  `pm_life_variance` can be `NaN`
(for a single-event group); a comparison against `NaN` is false. -/
def chronic_flag (cfg : ChronicConfig) (total_pm_events : ℕ)
    (unscheduled_pm_rate : ℚ) (pm_life_variance : Option ℚ) : ℕ :=
  if decide (cfg.min_pm_events ≤ total_pm_events) &&
     (decide (cfg.unscheduled_pm_threshold < unscheduled_pm_rate) ||
      nanLt cfg.pm_variance_threshold pm_life_variance) then 1 else 0

/-- Inner `assign_severity` of `classify_chronic_tools`
(classification.py lines 287-297): `None` when the flag is `0`, otherwise
the first cutoff the (possibly `NaN`) score reaches, defaulting to `Low`. -/
def assign_severity (cfg : ChronicConfig) (flag : ℕ)
    (chronic_score : Option ℚ) : Option String :=
  if flag = 0 then none
  else if nanLe cfg.severity_critical chronic_score then some "Critical"
  else if nanLe cfg.severity_high chronic_score then some "High"
  else if nanLe cfg.severity_medium chronic_score then some "Medium"
  else some "Low"

/-! ### ChronicToolAnalyzer.analyze_by_entity
(classification.py, lines 316-372) -/

/-- One classified PM event row, restricted to the columns
`analyze_by_entity` reads.  In the pipeline the `scheduled_flag` column
has already been produced from `DOWNTIME_TYPE` by `classify_scheduled`,
so here it is derived by applying `scheduled_flag` to `downtime_type`. -/
structure PMRow where
  entity : String
  facility : String
  ceid : String
  downtime_type : Option String
  down_window_duration_hr : ℚ
  custom_delta : ℚ
  reclean_label : ℚ
  sympathy_pm : ℚ
deriving DecidableEq

/-- Grouping key of `df.groupby(['ENTITY', 'FACILITY', 'CEID'])`. -/
abbrev EntityKey := String × String × String

def rowKey (r : PMRow) : EntityKey := (r.entity, r.facility, r.ceid)

/-- The rows of the group for key `k` (the multiset a pandas groupby
aggregates for that key). -/
def rowsForKey (rows : List PMRow) (k : EntityKey) : List PMRow :=
  rows.filter (fun r => decide (rowKey r = k))

/-- pandas `mean` over a group column. -/
def listMean (xs : List ℚ) : ℚ := xs.sum / (xs.length : ℚ)

/-- pandas `std` (sample standard deviation, `ddof = 1`): `NaN` (`none`)
for fewer than two observations.  The square root of a rational is not
rational, so the square-root function is a parameter `sqrtFn`; no claim
below depends on its values, only on where `std` is defined. -/
def sampleStd (sqrtFn : ℚ → ℚ) (xs : List ℚ) : Option ℚ :=
  if 2 ≤ xs.length then
    some (sqrtFn ((xs.map (fun x => (x - listMean xs) ^ 2)).sum /
      ((xs.length : ℚ) - 1)))
  else none

/-- `lambda x: (x == 0).sum()` over the group's `scheduled_flag` column:
the unscheduled count. -/
def unscheduled_count (g : List PMRow) : ℕ :=
  g.countP (fun r => decide (scheduled_flag r.downtime_type = 0))

/-- `'DOWN_WINDOW_DURATION_HR': 'sum'`. -/
def group_downtime (g : List PMRow) : ℚ :=
  (g.map PMRow.down_window_duration_hr).sum

/-- The group's `CUSTOM_DELTA` column. -/
def group_deltas (g : List PMRow) : List ℚ := g.map PMRow.custom_delta

/-- `'CUSTOM_DELTA': 'mean'` (the `avg_pm_life` column). -/
def avg_pm_life_of (g : List PMRow) : ℚ := listMean (group_deltas g)

/-- `'Reclean_Label': 'mean'`. -/
def reclean_rate_of (g : List PMRow) : ℚ :=
  listMean (g.map PMRow.reclean_label)

/-- `'Sympathy_PM': 'mean'`. -/
def sympathy_rate_of (g : List PMRow) : ℚ :=
  listMean (g.map PMRow.sympathy_pm)

/-- `unscheduled_pm_rate = unscheduled_pm_count / total_pm_events`. -/
def unscheduled_rate_of (g : List PMRow) : ℚ :=
  (unscheduled_count g : ℚ) / (g.length : ℚ)

/-- `avg_downtime_hours_per_pm = total_downtime_hours / total_pm_events`. -/
def avg_downtime_of (g : List PMRow) : ℚ :=
  group_downtime g / (g.length : ℚ)

/-- `np.where(avg_pm_life > 0, pm_life_std_dev / avg_pm_life, 0)`: when
the mean is positive the quotient is `NaN` exactly when the sample
standard deviation is (single-observation group); otherwise `0`. -/
def pm_life_variance_of (sqrtFn : ℚ → ℚ) (g : List PMRow) : Option ℚ :=
  if 0 < avg_pm_life_of g then
    (sampleStd sqrtFn (group_deltas g)).map (fun s => s / avg_pm_life_of g)
  else some 0

/-- The `chronic_score` column on one aggregate row: a `NaN` variance
propagates through `calculate_chronic_score` to a `NaN` score. -/
def chronic_score_of (cfg : ChronicConfig) (sqrtFn : ℚ → ℚ)
    (g : List PMRow) : Option ℚ :=
  (pm_life_variance_of sqrtFn g).map (fun v =>
    calculate_chronic_score cfg (unscheduled_rate_of g) v
      (avg_downtime_of g) (reclean_rate_of g) (sympathy_rate_of g))

/-- The `chronic_flag` column on one aggregate row. -/
def chronic_flag_of (cfg : ChronicConfig) (sqrtFn : ℚ → ℚ)
    (g : List PMRow) : ℕ :=
  chronic_flag cfg g.length (unscheduled_rate_of g)
    (pm_life_variance_of sqrtFn g)

/-- One row of the `entity_metrics` DataFrame produced by
`analyze_by_entity` (after `calculate_chronic_score` and
`classify_chronic_tools`). -/
structure EntityAgg where
  total_pm_events : ℕ
  unscheduled_pm_count : ℕ
  total_downtime_hours : ℚ
  pm_life_std_dev : Option ℚ
  avg_pm_life : ℚ
  reclean_rate : ℚ
  sympathy_pm_rate : ℚ
  unscheduled_pm_rate : ℚ
  avg_downtime_hours_per_pm : ℚ
  pm_life_variance : Option ℚ
  chronic_score : Option ℚ
  chronic_flag : ℕ
  chronic_severity : Option String
deriving DecidableEq

/-- The aggregate row computed from one groupby group. -/
def aggOfGroup (cfg : ChronicConfig) (sqrtFn : ℚ → ℚ)
    (g : List PMRow) : EntityAgg :=
  { total_pm_events := g.length
    unscheduled_pm_count := unscheduled_count g
    total_downtime_hours := group_downtime g
    pm_life_std_dev := sampleStd sqrtFn (group_deltas g)
    avg_pm_life := avg_pm_life_of g
    reclean_rate := reclean_rate_of g
    sympathy_pm_rate := sympathy_rate_of g
    unscheduled_pm_rate := unscheduled_rate_of g
    avg_downtime_hours_per_pm := avg_downtime_of g
    pm_life_variance := pm_life_variance_of sqrtFn g
    chronic_score := chronic_score_of cfg sqrtFn g
    chronic_flag := chronic_flag_of cfg sqrtFn g
    chronic_severity := assign_severity cfg (chronic_flag_of cfg sqrtFn g)
      (chronic_score_of cfg sqrtFn g) }

/-- `ChronicToolAnalyzer.analyze_by_entity`, viewed per key: `none` when
no row carries the key (a pandas groupby emits no group for it),
otherwise the aggregate of the group's rows. -/
def analyze_by_entity (cfg : ChronicConfig) (sqrtFn : ℚ → ℚ)
    (rows : List PMRow) (k : EntityKey) : Option EntityAgg :=
  if (rowsForKey rows k).isEmpty then none
  else some (aggOfGroup cfg sqrtFn (rowsForKey rows k))

/-! ### KPIAggregator rolling statistics
(kpi_aggregator.py, lines 611-662) -/

/-- One row of `fact_pm_kpis_by_site_ww` as read back by
`_calculate_rolling_averages_python`. -/
structure WeekRow where
  facility : String
  ww_year : ℤ
  ww_number : ℤ
  avg_pm_life : ℚ
  total_pm_events : ℚ
  total_downtime_hours : ℚ
deriving DecidableEq

/-- `sort_values(['ww_year', 'ww_number'])` key order. -/
def weekLe (a b : WeekRow) : Bool :=
  decide (a.ww_year < b.ww_year) ||
  (decide (a.ww_year = b.ww_year) && decide (a.ww_number ≤ b.ww_number))

def insertWeek (r : WeekRow) : List WeekRow → List WeekRow
  | [] => [r]
  | x :: xs => if weekLe r x then r :: x :: xs else x :: insertWeek r xs

/-- A facility's rows sorted by fiscal year then week number
(insertion sort; the sort key is all the claims depend on). -/
def sortWeeks (rows : List WeekRow) : List WeekRow :=
  rows.foldr insertWeek []

/-- The trailing window of size at most `w` ending at index `i`. -/
def trailingWindow (w i : ℕ) (xs : List ℚ) : List ℚ :=
  (xs.take (i + 1)).drop (i + 1 - w)

/-- `Series.rolling(window=w, min_periods=minp).agg(f)`: position `i`
carries `f` of the trailing window when the window has at least `minp`
entries, `NaN` (`none`) otherwise. -/
def rollingStat (w minp : ℕ) (f : List ℚ → ℚ) (xs : List ℚ) :
    List (Option ℚ) :=
  (List.range xs.length).map (fun i =>
    if minp ≤ (trailingWindow w i xs).length then
      some (f (trailingWindow w i xs))
    else none)

/-- `rolling_4wk_avg_pm_life` for one facility:
`rolling(window=4, min_periods=1).mean()` over the sorted series. -/
def rolling_4wk_avg_pm_life (rows : List WeekRow) : List (Option ℚ) :=
  rollingStat 4 1 listMean ((sortWeeks rows).map WeekRow.avg_pm_life)

/-- `rolling_4wk_pm_count`: `rolling(window=4, min_periods=1).sum()`. -/
def rolling_4wk_pm_count (rows : List WeekRow) : List (Option ℚ) :=
  rollingStat 4 1 List.sum ((sortWeeks rows).map WeekRow.total_pm_events)

/-- `rolling_4wk_downtime_hours`:
`rolling(window=4, min_periods=1).sum()`. -/
def rolling_4wk_downtime_hours (rows : List WeekRow) : List (Option ℚ) :=
  rollingStat 4 1 List.sum
    ((sortWeeks rows).map WeekRow.total_downtime_hours)

/-! ### validate_config score-weight check
(validate_config.py, lines 153-169) -/

/-- Whether `validate_config` appends the fatal error
`Chronic score weights must total 1.0` for the given five weights:
`abs(total_weight - 1.0) > 0.01`. -/
def score_weights_error
    (unscheduled_w variance_w downtime_w reclean_w sympathy_w : ℚ) : Bool :=
  decide (1/100 <
    |unscheduled_w + variance_w + downtime_w + reclean_w + sympathy_w - 1|)

/-- Rank of a severity tier, for stating monotonicity. -/
def severityRank : Option String → ℕ
  | some "Critical" => 4
  | some "High" => 3
  | some "Medium" => 2
  | some "Low" => 1
  | _ => 0

/-! ### Concrete rows used by closed evaluations -/

def c5key : EntityKey := ("T1", "F1", "CH1")

def c5row1 : PMRow :=
  { entity := "T1", facility := "F1", ceid := "CH1",
    downtime_type := some "Scheduled", down_window_duration_hr := 2,
    custom_delta := 5, reclean_label := 0, sympathy_pm := 0 }

def c5row2 : PMRow :=
  { entity := "T1", facility := "F1", ceid := "CH1",
    downtime_type := some "Unscheduled", down_window_duration_hr := 4,
    custom_delta := 7, reclean_label := 1, sympathy_pm := 0 }

/-- The aggregate of the two-row group, used by the C5 witness. -/
def c5agg2 : EntityAgg :=
  aggOfGroup defaultChronicConfig (fun q => q)
    (rowsForKey [c5row1, c5row2] c5key)

def c8row1 : PMRow :=
  { entity := "T2", facility := "F2", ceid := "CH2",
    downtime_type := some "Unscheduled", down_window_duration_hr := 3,
    custom_delta := 10, reclean_label := 0, sympathy_pm := 1 }

def c8row2 : PMRow :=
  { entity := "T2", facility := "F2", ceid := "CH2",
    downtime_type := none, down_window_duration_hr := 1,
    custom_delta := 12, reclean_label := 1, sympathy_pm := 0 }

/-- The spec's 6-week example series for one facility: weekly averages
`10, 20, 30, 40, 50, 60`. -/
def c7rows : List WeekRow :=
  [ { facility := "F1", ww_year := 2024, ww_number := 1, avg_pm_life := 10,
      total_pm_events := 5, total_downtime_hours := 1 },
    { facility := "F1", ww_year := 2024, ww_number := 2, avg_pm_life := 20,
      total_pm_events := 5, total_downtime_hours := 1 },
    { facility := "F1", ww_year := 2024, ww_number := 3, avg_pm_life := 30,
      total_pm_events := 5, total_downtime_hours := 1 },
    { facility := "F1", ww_year := 2024, ww_number := 4, avg_pm_life := 40,
      total_pm_events := 5, total_downtime_hours := 1 },
    { facility := "F1", ww_year := 2024, ww_number := 5, avg_pm_life := 50,
      total_pm_events := 5, total_downtime_hours := 1 },
    { facility := "F1", ww_year := 2024, ww_number := 6, avg_pm_life := 60,
      total_pm_events := 5, total_downtime_hours := 1 } ]

/-! ### Claim C3 -/

/-- C3: for ordered thresholds `early ≤ on_time_min ≤ on_time_max ≤ late
≤ overdue`, a defined deviation is classified `Early` below `early`,
`On-Time` inside `[on_time_min, on_time_max]`, `Late` in
`(late, overdue]`, `Overdue` above `overdue`, and `On-Time` in the gap
`(on_time_max, late]` when the two differ; at the default thresholds
`(-15, -15, 15, 15, 30)` the deviations `-20, 0, 20, 40` classify as
`Early`, `On-Time`, `Late`, `Overdue`. -/
theorem C3_timing_categories (cfg : PMTimingConfig)
    (h1 : cfg.early_threshold ≤ cfg.on_time_min)
    (h2 : cfg.on_time_min ≤ cfg.on_time_max)
    (h3 : cfg.on_time_max ≤ cfg.late_threshold)
    (h4 : cfg.late_threshold ≤ cfg.overdue_threshold) :
    (∀ p : ℚ, p < cfg.early_threshold →
      classify_row cfg (some p) = "Early") ∧
    (∀ p : ℚ, cfg.on_time_min ≤ p → p ≤ cfg.on_time_max →
      classify_row cfg (some p) = "On-Time") ∧
    (∀ p : ℚ, cfg.late_threshold < p → p ≤ cfg.overdue_threshold →
      classify_row cfg (some p) = "Late") ∧
    (∀ p : ℚ, cfg.overdue_threshold < p →
      classify_row cfg (some p) = "Overdue") ∧
    (∀ p : ℚ, cfg.on_time_max < p → p ≤ cfg.late_threshold →
      classify_row cfg (some p) = "On-Time") ∧
    (classify_row defaultTimingConfig (some (-20)) = "Early" ∧
     classify_row defaultTimingConfig (some 0) = "On-Time" ∧
     classify_row defaultTimingConfig (some 20) = "Late" ∧
     classify_row defaultTimingConfig (some 40) = "Overdue") := by
  refine ⟨?_, ?_, ?_, ?_, ?_, by decide⟩
  · intro p hp
    simp [classify_row, hp]
  · intro p hmin hmax
    have hne : ¬ p < cfg.early_threshold := by
      push_neg
      exact le_trans h1 hmin
    simp [classify_row, hne, hmin, hmax]
  · intro p hlate hover
    have hne : ¬ p < cfg.early_threshold := by
      push_neg
      exact le_trans (le_trans h1 (le_trans h2 h3)) (le_of_lt hlate)
    have hnot : ¬ (cfg.on_time_min ≤ p ∧ p ≤ cfg.on_time_max) := by
      rintro ⟨-, hc⟩
      exact absurd (lt_of_le_of_lt (le_trans hc h3) hlate) (lt_irrefl p)
    simp [classify_row, hne, hnot, hlate, hover]
  · intro p hp
    have hne : ¬ p < cfg.early_threshold := by
      push_neg
      exact le_trans (le_trans h1 (le_trans h2 (le_trans h3 h4))) (le_of_lt hp)
    have hnot : ¬ (cfg.on_time_min ≤ p ∧ p ≤ cfg.on_time_max) := by
      rintro ⟨-, hc⟩
      exact absurd (lt_of_le_of_lt (le_trans hc (le_trans h3 h4)) hp)
        (lt_irrefl p)
    have hnl : ¬ (cfg.late_threshold < p ∧ p ≤ cfg.overdue_threshold) := by
      rintro ⟨-, hc⟩
      exact absurd (lt_of_le_of_lt hc hp) (lt_irrefl p)
    simp [classify_row, hne, hnot, hnl, hp]
  · intro p hgap hle
    have hne : ¬ p < cfg.early_threshold := by
      push_neg
      exact le_trans (le_trans h1 h2) (le_of_lt hgap)
    have hnot : ¬ (cfg.on_time_min ≤ p ∧ p ≤ cfg.on_time_max) := by
      rintro ⟨-, hc⟩
      exact absurd (lt_of_le_of_lt hc hgap) (lt_irrefl p)
    have hnl : ¬ (cfg.late_threshold < p ∧ p ≤ cfg.overdue_threshold) := by
      rintro ⟨hc, -⟩
      exact absurd (lt_of_le_of_lt hle hc) (lt_irrefl p)
    have hno : ¬ cfg.overdue_threshold < p := by
      push_neg
      exact le_trans hle h4
    simp [classify_row, hne, hnot, hnl, hno]

/-- C3 witness: the general theorem instantiated at the default thresholds
and deviation `20`. -/
theorem C3_timing_categories_witness :
    classify_row defaultTimingConfig (some 20) = "Late" :=
  (C3_timing_categories defaultTimingConfig (by norm_num [defaultTimingConfig])
    (by norm_num [defaultTimingConfig]) (by norm_num [defaultTimingConfig])
    (by norm_num [defaultTimingConfig])).2.2.1 20 (by norm_num
      [defaultTimingConfig]) (by norm_num [defaultTimingConfig])

/-! ### Helper bounds for clipping and rounding -/

lemma npClip_nonneg (x : ℚ) : 0 ≤ npClip x 0 100 :=
  le_min (le_max_right x 0) (by norm_num)

lemma npClip_le (x : ℚ) : npClip x 0 100 ≤ 100 := min_le_right _ _

lemma roundHalfEven_nonneg (q : ℚ) (h : 0 ≤ q) : 0 ≤ roundHalfEven q := by
  have hf : (0 : ℤ) ≤ ⌊q⌋ := Int.floor_nonneg.mpr h
  unfold roundHalfEven
  dsimp only
  split
  · exact hf
  · split
    · omega
    · split <;> omega

lemma roundHalfEven_le (q : ℚ) (n : ℤ) (h : q ≤ (n : ℚ)) :
    roundHalfEven q ≤ n := by
  have hf : ⌊q⌋ ≤ n := by
    have := Int.floor_le_floor h
    simpa using this
  unfold roundHalfEven
  dsimp only
  split
  · exact hf
  · rename_i h1
    push_neg at h1
    have hfq : (⌊q⌋ : ℚ) ≤ q := Int.floor_le q
    have hlt : ⌊q⌋ < n := by
      by_contra hc
      push_neg at hc
      have hen : ⌊q⌋ = n := le_antisymm hf hc
      rw [hen] at h1
      have : q - (n : ℚ) ≤ 0 := by linarith
      linarith
    split
    · omega
    · split <;> omega

lemma round2_bounds (q : ℚ) (h0 : 0 ≤ q) (h1 : q ≤ 100) :
    0 ≤ round2 q ∧ round2 q ≤ 100 := by
  have hlo : (0 : ℤ) ≤ roundHalfEven (q * 100) :=
    roundHalfEven_nonneg _ (by linarith)
  have hhi : roundHalfEven (q * 100) ≤ (10000 : ℤ) :=
    roundHalfEven_le _ 10000 (by push_cast; linarith)
  unfold round2
  constructor
  · exact div_nonneg (by exact_mod_cast hlo) (by norm_num)
  · rw [div_le_iff₀ (by norm_num : (0:ℚ) < 100)]
    calc (roundHalfEven (q * 100) : ℚ) ≤ 10000 := by exact_mod_cast hhi
      _ = 100 * 100 := by norm_num

/-! ### Claim C1 -/

/-- C1 counterexample: the claim asserts the composite score is in
`[0,100]` for all nonnegative rates of any magnitude, but the reclean and
sympathy factors are not clipped: with the default configuration and
rates `(0, 0, 0, 20, 0)` (all nonnegative) the composite score is `200`. -/
theorem C1_score_not_clipped :
    (0 : ℚ) ≤ 20 ∧
    calculate_chronic_score defaultChronicConfig 0 0 0 20 0 = 200 ∧
    ¬ calculate_chronic_score defaultChronicConfig 0 0 0 20 0 ≤ 100 := by
  have h : calculate_chronic_score defaultChronicConfig 0 0 0 20 0 = 200 := by
    norm_num [calculate_chronic_score, defaultChronicConfig, npClip, round2,
      roundHalfEven, min_def, max_def]
  refine ⟨by norm_num, h, ?_⟩
  rw [h]
  norm_num

/-- C1 amended: for nonnegative rates, the composite score lies in
`[0,100]` provided the unclipped factors `reclean_rate` and
`sympathy_pm_rate` are additionally at most `1` (which holds in the
pipeline, where they are means of 0/1 indicator columns), for any
nonnegative weights summing to `1` — in particular the default weights. -/
theorem C1_score_bounded (cfg : ChronicConfig)
    (u v d r s : ℚ)
    (hr0 : 0 ≤ r) (hs0 : 0 ≤ s) (hr1 : r ≤ 1) (hs1 : s ≤ 1)
    (hw1 : 0 ≤ cfg.weight_unscheduled) (hw2 : 0 ≤ cfg.weight_variance)
    (hw3 : 0 ≤ cfg.weight_downtime) (hw4 : 0 ≤ cfg.weight_reclean)
    (hw5 : 0 ≤ cfg.weight_sympathy)
    (hsum : cfg.weight_unscheduled + cfg.weight_variance +
            cfg.weight_downtime + cfg.weight_reclean +
            cfg.weight_sympathy = 1) :
    0 ≤ calculate_chronic_score cfg u v d r s ∧
    calculate_chronic_score cfg u v d r s ≤ 100 := by
  unfold calculate_chronic_score
  set s1 := npClip (u / cfg.unscheduled_pm_threshold * 100) 0 100 with hs1d
  set s2 := npClip (v / cfg.pm_variance_threshold * 100) 0 100 with hs2d
  set s3 := npClip (d / 10 * 100) 0 100 with hs3d
  have b1 := npClip_nonneg (u / cfg.unscheduled_pm_threshold * 100)
  have b1h := npClip_le (u / cfg.unscheduled_pm_threshold * 100)
  have b2 := npClip_nonneg (v / cfg.pm_variance_threshold * 100)
  have b2h := npClip_le (v / cfg.pm_variance_threshold * 100)
  have b3 := npClip_nonneg (d / 10 * 100)
  have b3h := npClip_le (d / 10 * 100)
  have hT0 : 0 ≤ s1 * cfg.weight_unscheduled + s2 * cfg.weight_variance +
      s3 * cfg.weight_downtime + r * 100 * cfg.weight_reclean +
      s * 100 * cfg.weight_sympathy := by
    have := mul_nonneg b1 hw1
    have := mul_nonneg b2 hw2
    have := mul_nonneg b3 hw3
    have := mul_nonneg (by linarith : (0:ℚ) ≤ r * 100) hw4
    have := mul_nonneg (by linarith : (0:ℚ) ≤ s * 100) hw5
    linarith
  have hT1 : s1 * cfg.weight_unscheduled + s2 * cfg.weight_variance +
      s3 * cfg.weight_downtime + r * 100 * cfg.weight_reclean +
      s * 100 * cfg.weight_sympathy ≤ 100 := by
    have m1 := mul_le_mul_of_nonneg_right b1h hw1
    have m2 := mul_le_mul_of_nonneg_right b2h hw2
    have m3 := mul_le_mul_of_nonneg_right b3h hw3
    have m4 := mul_le_mul_of_nonneg_right
      (by linarith : r * 100 ≤ 100) hw4
    have m5 := mul_le_mul_of_nonneg_right
      (by linarith : s * 100 ≤ 100) hw5
    nlinarith [hsum]
  exact round2_bounds _ hT0 hT1

/-- C1 witness: the amended bound evaluated at the default configuration
with rates `(1, 1, 20, 1/2, 1/2)`. -/
theorem C1_score_bounded_witness :
    0 ≤ calculate_chronic_score defaultChronicConfig 1 1 20 (1/2) (1/2) ∧
    calculate_chronic_score defaultChronicConfig 1 1 20 (1/2) (1/2) ≤ 100 :=
  C1_score_bounded defaultChronicConfig 1 1 20 (1/2) (1/2)
    (by norm_num) (by norm_num) (by norm_num) (by norm_num)
    (by norm_num [defaultChronicConfig]) (by norm_num [defaultChronicConfig])
    (by norm_num [defaultChronicConfig]) (by norm_num [defaultChronicConfig])
    (by norm_num [defaultChronicConfig]) (by norm_num [defaultChronicConfig])

lemma iteOneZeroEqOne (b : Bool) : (if b then (1 : ℕ) else 0) = 1 ↔ b = true := by
  cases b <;> simp

/-! ### Claim C2 -/

/-- C2: the chronic flag is `1` iff `total_pm_events ≥ min_pm_events` and
(`unscheduled_pm_rate > unscheduled_threshold` or
`pm_life_variance > variance_threshold`); whenever
`total_pm_events < min_pm_events` the flag is `0` regardless of the other
metrics (including a `NaN` variance).  The flag is computed from the raw
rates only — `chronic_flag` takes no score argument — so it does not
depend on the composite score. -/
theorem C2_chronic_flag_iff (cfg : ChronicConfig) (total : ℕ) (u : ℚ) :
    (∀ v : ℚ, chronic_flag cfg total u (some v) = 1 ↔
      (cfg.min_pm_events ≤ total ∧
       (cfg.unscheduled_pm_threshold < u ∨ cfg.pm_variance_threshold < v))) ∧
    (∀ vo : Option ℚ, total < cfg.min_pm_events →
      chronic_flag cfg total u vo = 0) := by
  constructor
  · intro v
    simp only [chronic_flag]
    rw [iteOneZeroEqOne]
    simp only [nanLt, Bool.and_eq_true, Bool.or_eq_true, decide_eq_true_eq]
  · intro vo h
    have hn : ¬ cfg.min_pm_events ≤ total := Nat.not_le.mpr h
    simp [chronic_flag, hn]

/-- C2 witness: with the default configuration (min 5 events), an entity
with only 3 events and extreme rates (`unscheduled_pm_rate = 100`,
`pm_life_variance = 100`) is not flagged. -/
theorem C2_chronic_flag_iff_witness :
    chronic_flag defaultChronicConfig 3 100 (some 100) = 0 :=
  (C2_chronic_flag_iff defaultChronicConfig 3 100).2 (some 100) (by decide)

/-! ### Claim C6 -/

/-- C6: severity is `none` exactly on unflagged rows; a flagged row gets
exactly one of `Low`, `Medium`, `High`, `Critical` by ascending score
cutoffs, and among flagged rows the tier is weakly monotonic in the
score. -/
theorem C6_severity_tiers (cfg : ChronicConfig) (flag : ℕ)
    (score : Option ℚ) :
    (flag = 0 → assign_severity cfg flag score = none) ∧
    (flag ≠ 0 →
      assign_severity cfg flag score = some "Low" ∨
      assign_severity cfg flag score = some "Medium" ∨
      assign_severity cfg flag score = some "High" ∨
      assign_severity cfg flag score = some "Critical") ∧
    (∀ s1 s2 : ℚ, s1 ≤ s2 → flag ≠ 0 →
      severityRank (assign_severity cfg flag (some s1)) ≤
      severityRank (assign_severity cfg flag (some s2))) := by
  refine ⟨?_, ?_, ?_⟩
  · intro h
    simp [assign_severity, h]
  · intro h
    unfold assign_severity
    split_ifs <;> simp_all
  · intro s1 s2 h12 hf
    unfold assign_severity nanLe
    simp only [hf, if_neg, decide_eq_true_eq]
    split_ifs <;> simp_all [severityRank] <;> linarith

/-- C6 witness: with the default cutoffs, a flagged row with score `60`
ranks no higher than one with score `95`. -/
theorem C6_severity_tiers_witness :
    severityRank (assign_severity defaultChronicConfig 1 (some 60)) ≤
    severityRank (assign_severity defaultChronicConfig 1 (some 95)) :=
  (C6_severity_tiers defaultChronicConfig 1 (some 60)).2.2 60 95
    (by norm_num) (by norm_num)

/-! ### Claim C4 -/

/-- C4 counterexample: the claim says `deviation_pct` is undefined iff
the target is null or nonpositive, but a row with a null actual
(`CUSTOM_DELTA = NaN`) and the positive target `100` also has an
undefined `deviation_pct`. -/
theorem C4_undefined_despite_positive_target :
    pm_life_vs_target_pct none (some 100) = none ∧
    (0 : ℚ) < 100 ∧ some (100 : ℚ) ≠ none := by
  refine ⟨?_, by norm_num, by simp⟩
  simp [pm_life_vs_target_pct, pm_life_vs_target]

/-- C4 amended: `deviation_pct` is undefined iff the target is null or
nonpositive, or the actual (`CUSTOM_DELTA`) is null; the timing
classification is `Unknown` exactly when `deviation_pct` is undefined;
and the classifier is a total function — every row gets one of the five
category strings, so malformed numeric input never raises. -/
theorem C4_unknown_iff_undefined (cfg : PMTimingConfig) (c m : Option ℚ) :
    (pm_life_vs_target_pct c m = none ↔
      (m = none ∨ (∃ mv, m = some mv ∧ mv ≤ 0) ∨ c = none)) ∧
    (classify_row cfg (pm_life_vs_target_pct c m) = "Unknown" ↔
      pm_life_vs_target_pct c m = none) ∧
    (classify_row cfg (pm_life_vs_target_pct c m) = "Unknown" ∨
     classify_row cfg (pm_life_vs_target_pct c m) = "Early" ∨
     classify_row cfg (pm_life_vs_target_pct c m) = "On-Time" ∨
     classify_row cfg (pm_life_vs_target_pct c m) = "Late" ∨
     classify_row cfg (pm_life_vs_target_pct c m) = "Overdue") := by
  refine ⟨?_, ?_, ?_⟩
  · rcases m with _ | mv
    · simp [pm_life_vs_target_pct]
    · rcases c with _ | cv
      · simp [pm_life_vs_target_pct, pm_life_vs_target]
      · by_cases hm : 0 < mv
        · simp [pm_life_vs_target_pct, pm_life_vs_target, hm, not_le.mpr hm]
        · push_neg at hm
          simp [pm_life_vs_target_pct, pm_life_vs_target, not_lt.mpr hm, hm]
  · cases hp : pm_life_vs_target_pct c m with
    | none => simp [classify_row]
    | some p =>
        simp only [classify_row]
        constructor
        · intro hcl
          split_ifs at hcl <;> simp_all
        · intro hc
          exact absurd hc (by simp)
  · cases hp : pm_life_vs_target_pct c m with
    | none =>
        left
        simp [classify_row]
    | some p =>
        simp only [classify_row]
        split_ifs <;> simp

/-! ### Claim C5 -/

/-- C5 counterexample: for the single-event group `[c5row1]` (mean usage
`5 > 0`), pandas `std` with `ddof = 1` is `NaN`, and the
`np.where(avg > 0, std/avg, 0)` guard takes the `std/avg` branch, so
`pm_life_variance` is `NaN` — a NaN is propagated even though the
divide-by-zero case is guarded. -/
theorem C5_single_event_variance_nan :
    0 < (aggOfGroup defaultChronicConfig (fun q => q)
      (rowsForKey [c5row1] c5key)).avg_pm_life ∧
    (aggOfGroup defaultChronicConfig (fun q => q)
      (rowsForKey [c5row1] c5key)).pm_life_variance = none ∧
    analyze_by_entity defaultChronicConfig (fun q => q) [c5row1] c5key =
      some (aggOfGroup defaultChronicConfig (fun q => q)
        (rowsForKey [c5row1] c5key)) := by
  have hg : rowsForKey [c5row1] c5key = [c5row1] := by
    simp [rowsForKey, rowKey, c5row1, c5key]
  refine ⟨?_, ?_, ?_⟩
  · rw [hg]
    norm_num [aggOfGroup, avg_pm_life_of, group_deltas, listMean, c5row1]
  · rw [hg]
    norm_num [aggOfGroup, pm_life_variance_of, avg_pm_life_of, group_deltas,
      listMean, sampleStd, c5row1]
  · simp [analyze_by_entity, hg]

/-- C5 amended: every produced entity aggregate satisfies
`unscheduled_pm_rate = unscheduled_pm_count / total_pm_events` and
`avg_downtime_hours_per_pm = total_downtime_hours / total_pm_events`;
`pm_life_variance` is `0` when the mean usage is nonpositive (the
explicit divide-by-zero guard) and `std / mean` when the mean is
positive — but the sample standard deviation, hence the variance, is
`NaN` (undefined) for groups with fewer than two events, so the guard
does not keep every `NaN` out of `pm_life_variance`. -/
theorem C5_entity_metric_formulas (cfg : ChronicConfig) (sqrtFn : ℚ → ℚ)
    (rows : List PMRow) (k : EntityKey) (agg : EntityAgg)
    (h : analyze_by_entity cfg sqrtFn rows k = some agg) :
    agg.unscheduled_pm_rate =
      (agg.unscheduled_pm_count : ℚ) / (agg.total_pm_events : ℚ) ∧
    agg.avg_downtime_hours_per_pm =
      agg.total_downtime_hours / (agg.total_pm_events : ℚ) ∧
    (agg.avg_pm_life ≤ 0 → agg.pm_life_variance = some 0) ∧
    (0 < agg.avg_pm_life →
      agg.pm_life_variance =
        agg.pm_life_std_dev.map (fun s => s / agg.avg_pm_life)) ∧
    (agg.pm_life_std_dev.isSome = true ↔ 2 ≤ agg.total_pm_events) := by
  unfold analyze_by_entity at h
  split at h
  · exact absurd h (by simp)
  · injection h with h
    subst h
    simp only [aggOfGroup]
    refine ⟨rfl, rfl, ?_, ?_, ?_⟩
    · intro hle
      unfold pm_life_variance_of
      rw [if_neg (not_lt.mpr hle)]
    · intro hpos
      unfold pm_life_variance_of
      rw [if_pos hpos]
    · unfold sampleStd
      split
      · rename_i h2
        simp only [group_deltas, List.length_map] at h2
        simp [h2]
      · rename_i h2
        simp only [group_deltas, List.length_map] at h2
        simp
        omega

/-- C5 witness: the amended formulas evaluated on a concrete two-row
group. -/
theorem C5_entity_metric_formulas_witness :
    c5agg2.unscheduled_pm_rate =
      (c5agg2.unscheduled_pm_count : ℚ) / (c5agg2.total_pm_events : ℚ) ∧
    c5agg2.avg_downtime_hours_per_pm =
      c5agg2.total_downtime_hours / (c5agg2.total_pm_events : ℚ) ∧
    (c5agg2.avg_pm_life ≤ 0 → c5agg2.pm_life_variance = some 0) ∧
    (0 < c5agg2.avg_pm_life →
      c5agg2.pm_life_variance =
        c5agg2.pm_life_std_dev.map (fun s => s / c5agg2.avg_pm_life)) ∧
    (c5agg2.pm_life_std_dev.isSome = true ↔ 2 ≤ c5agg2.total_pm_events) :=
  C5_entity_metric_formulas defaultChronicConfig (fun q => q)
    [c5row1, c5row2] c5key c5agg2
    (by simp [analyze_by_entity, c5agg2, rowsForKey, rowKey, c5row1, c5row2,
      c5key])

/-! ### Claim C8 -/

lemma listMean_perm {xs ys : List ℚ} (h : xs.Perm ys) :
    listMean xs = listMean ys := by
  unfold listMean
  rw [h.sum_eq, h.length_eq]

lemma sampleStd_perm (sqrtFn : ℚ → ℚ) {xs ys : List ℚ} (h : xs.Perm ys) :
    sampleStd sqrtFn xs = sampleStd sqrtFn ys := by
  unfold sampleStd
  simp only [listMean_perm h, h.length_eq,
    List.Perm.sum_eq (h.map fun x => (x - listMean ys) ^ 2)]

lemma aggOfGroup_perm (cfg : ChronicConfig) (sqrtFn : ℚ → ℚ)
    {g g' : List PMRow} (h : g.Perm g') :
    aggOfGroup cfg sqrtFn g = aggOfGroup cfg sqrtFn g' := by
  have hd : (group_deltas g).Perm (group_deltas g') := h.map _
  have h1 : g.length = g'.length := h.length_eq
  have h2 : unscheduled_count g = unscheduled_count g' :=
    List.Perm.countP_eq _ h
  have h3 : group_downtime g = group_downtime g' :=
    List.Perm.sum_eq (h.map _)
  have h4 : avg_pm_life_of g = avg_pm_life_of g' := listMean_perm hd
  have h5 : reclean_rate_of g = reclean_rate_of g' :=
    listMean_perm (h.map _)
  have h6 : sympathy_rate_of g = sympathy_rate_of g' :=
    listMean_perm (h.map _)
  have h7 : sampleStd sqrtFn (group_deltas g) =
      sampleStd sqrtFn (group_deltas g') := sampleStd_perm _ hd
  have h8 : unscheduled_rate_of g = unscheduled_rate_of g' := by
    unfold unscheduled_rate_of
    rw [h1, h2]
  have h9 : avg_downtime_of g = avg_downtime_of g' := by
    unfold avg_downtime_of
    rw [h1, h3]
  have h10 : pm_life_variance_of sqrtFn g = pm_life_variance_of sqrtFn g' := by
    unfold pm_life_variance_of
    simp only [h4, h7]
  have h11 : chronic_score_of cfg sqrtFn g = chronic_score_of cfg sqrtFn g' := by
    unfold chronic_score_of
    simp only [h5, h6, h8, h9, h10]
  have h12 : chronic_flag_of cfg sqrtFn g = chronic_flag_of cfg sqrtFn g' := by
    unfold chronic_flag_of
    rw [h1, h8, h10]
  unfold aggOfGroup
  simp only [h1, h2, h3, h4, h5, h6, h7, h8, h9, h10, h11, h12]

/-- C8: the entity aggregation is a pure function of its input rows and is
order-independent — permuting the input rows leaves every per-key
aggregate (all metrics, score, flag, severity) unchanged — and every
produced aggregate comes from a group with at least one event. -/
theorem C8_order_independence (cfg : ChronicConfig) (sqrtFn : ℚ → ℚ)
    (rows rows' : List PMRow) (h : rows.Perm rows') :
    (∀ k, analyze_by_entity cfg sqrtFn rows k =
      analyze_by_entity cfg sqrtFn rows' k) ∧
    (∀ k agg, analyze_by_entity cfg sqrtFn rows k = some agg →
      0 < agg.total_pm_events) := by
  constructor
  · intro k
    have hg : (rowsForKey rows k).Perm (rowsForKey rows' k) := h.filter _
    have he : (rowsForKey rows k).isEmpty = (rowsForKey rows' k).isEmpty := by
      have hlen := hg.length_eq
      rcases e1 : rowsForKey rows k with _ | ⟨a, l⟩ <;>
        rcases e2 : rowsForKey rows' k with _ | ⟨b, m⟩ <;> simp_all
    unfold analyze_by_entity
    simp only [he, aggOfGroup_perm cfg sqrtFn hg]
  · intro k agg ha
    unfold analyze_by_entity at ha
    split at ha
    · exact absurd ha (by simp)
    · rename_i hne
      injection ha with ha
      subst ha
      simp only [aggOfGroup]
      have hnil : rowsForKey rows k ≠ [] := by
        intro hn
        rw [hn] at hne
        simp at hne
      exact List.length_pos.mpr hnil

/-- C8 witness: the two orderings of a concrete two-row input give
identical aggregates for every key, and every aggregate of that input
has a positive event count. -/
theorem C8_order_independence_witness :
    (∀ k, analyze_by_entity defaultChronicConfig (fun q => q)
        [c8row1, c8row2] k =
      analyze_by_entity defaultChronicConfig (fun q => q)
        [c8row2, c8row1] k) ∧
    (∀ k agg, analyze_by_entity defaultChronicConfig (fun q => q)
        [c8row1, c8row2] k = some agg → 0 < agg.total_pm_events) :=
  C8_order_independence defaultChronicConfig (fun q => q)
    [c8row1, c8row2] [c8row2, c8row1] (List.Perm.swap c8row2 c8row1 [])

/-! ### Claim C10 -/

/-- C10: any downtime type that lowercases to neither `scheduled` nor
`unscheduled` (including null) gets category `Unknown` and
`scheduled_flag = 0`; the entity aggregator's `unscheduled_pm_count`
counts exactly the rows with `scheduled_flag = 0`, and
`unscheduled_pm_rate` divides that count by the group size — so
Unknown-type events are counted as unscheduled in both. -/
theorem C10_unknown_counted_unscheduled :
    (∀ s : String, strLower s ≠ "scheduled" → strLower s ≠ "unscheduled" →
      scheduled_category (some s) = "Unknown" ∧ scheduled_flag (some s) = 0) ∧
    (scheduled_category none = "Unknown" ∧ scheduled_flag none = 0) ∧
    (∀ g : List PMRow, unscheduled_count g =
      (g.filter (fun r => decide (scheduled_flag r.downtime_type = 0))).length) ∧
    (∀ g : List PMRow, unscheduled_rate_of g =
      (unscheduled_count g : ℚ) / (g.length : ℚ)) ∧
    (∀ g : List PMRow, ∀ r ∈ g,
      scheduled_category r.downtime_type = "Unknown" →
      0 < unscheduled_count g) := by
  refine ⟨?_, ⟨rfl, rfl⟩, ?_, fun g => rfl, ?_⟩
  · intro s hs hu
    simp [scheduled_category, scheduled_flag, hs, hu]
  · intro g
    exact List.countP_eq_length_filter _ _
  · intro g r hr hcat
    have hflag : scheduled_flag r.downtime_type = 0 := by
      rcases hdt : r.downtime_type with _ | s
      · rfl
      · rw [hdt] at hcat
        simp only [scheduled_category] at hcat
        simp only [scheduled_flag]
        split_ifs at hcat ⊢ with h1 h2
        · exact absurd hcat (by simp)
        · rfl
        · rfl
    unfold unscheduled_count
    rw [List.countP_pos_iff]
    exact ⟨r, hr, by simp [hflag]⟩

/-- C10 witness: a downtime type of `"PM - Other"` is categorised
`Unknown` with flag `0`, and a one-row group with that type has
`unscheduled_pm_count = 1`. -/
theorem C10_unknown_counted_unscheduled_witness :
    scheduled_category (some "PM - Other") = "Unknown" ∧
    scheduled_flag (some "PM - Other") = 0 :=
  C10_unknown_counted_unscheduled.1 "PM - Other" (by decide) (by decide)

/-! ### Claim C7 -/

lemma trailingWindow_length (w i : ℕ) (xs : List ℚ) (h : i < xs.length) :
    (trailingWindow w i xs).length = min (i + 1) w := by
  simp only [trailingWindow, List.length_drop, List.length_take]
  omega

lemma rollingStat_defined (w : ℕ) (f : List ℚ → ℚ) (xs : List ℚ)
    (hw : 1 ≤ w) :
    ∀ o ∈ rollingStat w 1 f xs, o.isSome = true := by
  intro o ho
  unfold rollingStat at ho
  rw [List.mem_map] at ho
  obtain ⟨i, hi, rfl⟩ := ho
  rw [List.mem_range] at hi
  have hlen : (trailingWindow w i xs).length = min (i + 1) w :=
    trailingWindow_length w i xs hi
  have : 1 ≤ (trailingWindow w i xs).length := by omega
  simp [this]

/-- C7: with `min_periods = 1` each of the three trailing 4-period rolling
statistics is defined at every position (the window shrinks to
`min (i+1) 4` entries at the start of the series instead of yielding
null), and on the 6-value example series `[10,20,30,40,50,60]` the
rolling 4-period mean is `[10, 15, 20, 25, 35, 45]`. -/
theorem C7_rolling_stats (rows : List WeekRow) :
    (∀ o ∈ rolling_4wk_avg_pm_life rows, o.isSome = true) ∧
    (∀ o ∈ rolling_4wk_pm_count rows, o.isSome = true) ∧
    (∀ o ∈ rolling_4wk_downtime_hours rows, o.isSome = true) ∧
    (∀ (xs : List ℚ) (i : ℕ), i < xs.length →
      (trailingWindow 4 i xs).length = min (i + 1) 4) ∧
    rolling_4wk_avg_pm_life c7rows =
      [some 10, some 15, some 20, some 25, some 35, some 45] := by
  refine ⟨rollingStat_defined 4 _ _ (by norm_num),
    rollingStat_defined 4 _ _ (by norm_num),
    rollingStat_defined 4 _ _ (by norm_num),
    fun xs i h => trailingWindow_length 4 i xs h, ?_⟩
  norm_num [rolling_4wk_avg_pm_life, rollingStat, sortWeeks, insertWeek,
    weekLe, c7rows, trailingWindow, listMean, List.range_succ]

/-! ### Claim C9 -/

/-- C9 counterexample: the validator's check is
`abs(total_weight - 1.0) > 0.01`, a tolerance band, not equality: the
weight set summing to `1.005` (`unscheduled` raised to `0.355`) is
accepted although it does not sum to `1.0`. -/
theorem C9_tolerance_counterexample :
    score_weights_error (71/200) (1/4) (1/5) (1/10) (1/10) = false ∧
    (71/200 + 1/4 + 1/5 + 1/10 + 1/10 : ℚ) ≠ 1 := by
  constructor
  · simp only [score_weights_error, decide_eq_false_iff_not, not_lt]
    rw [show (71/200 + 1/4 + 1/5 + 1/10 + 1/10 - 1 : ℚ) = 1/200 by norm_num]
    rw [abs_of_pos (by norm_num)]
    norm_num
  · norm_num

/-- C9 amended: the configuration-time check reports the fatal
`Chronic score weights must total 1.0` error exactly when the five
weights' sum differs from `1.0` by more than `0.01`; in particular a
weight set summing exactly to `1.0` is accepted. -/
theorem C9_weight_check_tolerance (w1 w2 w3 w4 w5 : ℚ) :
    (score_weights_error w1 w2 w3 w4 w5 = true ↔
      1/100 < |w1 + w2 + w3 + w4 + w5 - 1|) ∧
    (w1 + w2 + w3 + w4 + w5 = 1 →
      score_weights_error w1 w2 w3 w4 w5 = false) := by
  constructor
  · simp [score_weights_error]
  · intro h
    simp [score_weights_error, h]

/-- C9 witness: the default weights, which sum exactly to `1.0`, pass the
check. -/
theorem C9_weight_check_tolerance_witness :
    score_weights_error (7/20) (1/4) (1/5) (1/10) (1/10) = false :=
  (C9_weight_check_tolerance (7/20) (1/4) (1/5) (1/10) (1/10)).2 (by norm_num)
